import Mathlib

/-!
Verification development for the `illuminate` multi-agent orchestration core.

The definitions below are a shallow embedding of the Python sources:
  * `src/illuminate/tools.py`            (tool dispatch, `execute_tool_request_file`)
  * `src/illuminate/agents/agent.py`     (`Agent.query`, `Agent._add_message`,
                                          `Agent.add_message`, `Agent._add_file_request`,
                                          `Agent.call_tool`)
  * `src/illuminate/agents/review_agent.py`   (`ReviewResponse`, `ReviewAgent`)
  * `src/illuminate/agents/planning_agent.py` (`PlanningAction`, `PlanningResponse`,
                                          `PlanningAgent.run`, `PlanningAgent.ask_user`)
  * `src/illuminate/agents/worker_agents.py`  (`WorkerAgent`)
  * `src/illuminate/agents/agent_system.py`   (`AgentSystem.worker_step`, `AgentSystem.run`)

External effects (the OpenAI completion backend, the filesystem, stdin) are
modelled as explicit data: backend replies are given as a list of pending
`ParsedMessage` values consumed one per round trip, stdin as a list of strings,
and the filesystem / upload API as an `Env` record of functions.  Python
exceptions are modelled with `Except PyError`.
-/

namespace Illuminate

/-- A JSON value appearing as one argument of a tool call, as produced by
`json.loads` on `tool_call.function.arguments`.  String and list values support
`len(v)` and slicing (used by the `shortened_args` loop of
`execute_tool_request_file`); scalar values (numbers, booleans, null) make
`len(v)` raise `TypeError`, which we keep as the distinguished case `vscalar`. -/
inductive ArgVal where
  | vstr (s : String)
  | vlist (xs : List String)
  | vscalar
  deriving DecidableEq, Repr

/-- The argument payload of a tool call, modelled by the outcome of
`json.loads(tool_call.function.arguments)`: either the raw string is not valid
JSON (`malformed`, `json.loads` raises `JSONDecodeError`), or it parses to an
object given as key/value pairs. -/
inductive ToolArgs where
  | malformed
  | fields (kvs : List (String × ArgVal))
  deriving DecidableEq, Repr

/-- `ChatCompletionMessageToolCall`: identifier, function name, argument payload. -/
structure ToolCall where
  id : String
  name : String
  args : ToolArgs
  deriving DecidableEq, Repr

/-- One element of a multi-modal `content` list of a turn
(`Agent._add_file_request` builds one-element lists of these). -/
inductive ContentPart where
  | file (file_id : String)
  | image_url (url : String)
  deriving DecidableEq, Repr

/-- The `content` entry of a message dict: either plain text or a list of
multi-modal parts (the empty list is used for assistant turns that only carry
tool calls). -/
inductive Content where
  | text (s : String)
  | parts (ps : List ContentPart)
  deriving DecidableEq, Repr

/-- One entry of `Agent.messages`: a message dict with `role`, `content` and the
optional `tool_calls` / `tool_call_id` keys. -/
structure Turn where
  role : String
  content : Content
  tool_calls : Option (List ToolCall) := none
  tool_call_id : Option String := none
  deriving DecidableEq, Repr

/-- The mutable state owned by one `Agent`: the in-memory `self.messages` list
and the audit-log stream `illuminate_logs/{name}.txt` written by
`Agent._add_message` (one truncated entry per append). -/
structure AgentState where
  messages : List Turn
  log : List Turn
  deriving DecidableEq, Repr

/-- The fields of an OpenAI `ParsedChatCompletionMessage` read by the agent
loop: `content`, `parsed` (typed per agent by its `response_model`) and
`tool_calls`. -/
structure ParsedMessage (α : Type) where
  content : Option String
  parsed : Option α
  tool_calls : Option (List ToolCall)
  deriving DecidableEq, Repr

/-- Python exceptions that the orchestration code can raise (and never
catches): they propagate out of `Agent.query`. -/
inductive PyError where
  | jsonDecodeError
  | typeError
  | keyError
  | validationError
  | fileNotFound
  | apiError
  | attributeError
  | indexError
  | blockedOnBackend
  | blockedOnInput
  deriving DecidableEq, Repr

/-- The external world seen by `Agent._add_file_request`: `read p` is the byte
content of file `p` (`none` models `open` raising `FileNotFoundError`),
`create p` is the id returned by `client.files.create` (`none` models an API
failure). -/
structure Env where
  read : String → Option (List Nat)
  create : String → Option String

/-- A capability handler: models `json.dumps(tool_instance())` for a tool
instance successfully constructed from the given arguments.  Tool internals are
external collaborators of the orchestration core, so their behaviour is a
parameter. -/
def Handler : Type := String → List (String × ArgVal) → String

/- ---------------------------------------------------------------------------
Embedding of `src/illuminate/tools.py`
--------------------------------------------------------------------------- -/

/-- The `TOOLS` registry, by class name. -/
def TOOL_NAMES : List String :=
  ["LsTool", "GetFileInfoTool", "CatTool", "WriteFileTool", "DeleteFileTool",
   "RunPythonTool", "PipInstallTool", "HtmlToPdfTool", "ViewImageTool",
   "ViewPDFTool"]

/-- The `JUPYTER_NOTEBOOK_TOOLS` registry (`TOOLS` plus the notebook tools);
`execute_tool_request_file` dispatches over this list. -/
def JUPYTER_NOTEBOOK_TOOL_NAMES : List String :=
  TOOL_NAMES ++
  ["CreateJupyterNotebookTool", "GetJupyterNotebookCellsTool",
   "AddJupyterNotebookCellsTool"]

/-- `FILE_REQUEST_TOOLS`: the tools whose invocation is not executed but turned
into an artifact-attachment request. -/
def FILE_REQUEST_TOOLS : List String := ["ViewPDFTool", "ViewImageTool"]

/-- The required string-typed fields of each tool class (its pydantic
`Field(...)` declarations); used to model pydantic validation at
`tool(**tool_args)`. -/
def requiredStrFields : String → List String
  | "WriteFileTool" => ["path", "content"]
  | "RunPythonTool" => ["script"]
  | "PipInstallTool" => ["package"]
  | "HtmlToPdfTool" => ["html_file", "pdf_file"]
  | "AddJupyterNotebookCellsTool" => ["path"]
  | _ => ["path"]

/-- The required list-typed fields of each tool class
(`AddJupyterNotebookCellsTool.cells`). -/
def requiredListFields : String → List String
  | "AddJupyterNotebookCellsTool" => ["cells"]
  | _ => []

/-- Whether every argument value supports `len(v)` (the `shortened_args` loop of
`execute_tool_request_file` calls `len` on every value and raises `TypeError`
on scalars). -/
def sizedOk (kvs : List (String × ArgVal)) : Bool :=
  kvs.all fun kv =>
    match kv.2 with
    | ArgVal.vscalar => false
    | _ => true

/-- Look a string-valued field up in the parsed arguments. -/
def lookupStr (kvs : List (String × ArgVal)) (k : String) : Option String :=
  match List.lookup k kvs with
  | some (ArgVal.vstr s) => some s
  | _ => none

/-- Whether the field is present with a list value. -/
def lookupIsList (kvs : List (String × ArgVal)) (k : String) : Bool :=
  match List.lookup k kvs with
  | some (ArgVal.vlist _) => true
  | _ => false

/-- Pydantic validation of `tool(**tool_args)`: every declared field must be
present with a value of the declared type (extra keys are ignored, matching
pydantic defaults).  The per-element validation of
`AddJupyterNotebookCellsTool.cells` (each entry a `JupyterNotebookCell`) is
coarsened to accepting any list value — tool-schema internals are external to
the orchestration core. -/
def validateArgs (name : String) (kvs : List (String × ArgVal)) : Bool :=
  ((requiredStrFields name).all fun f => (lookupStr kvs f).isSome) &&
  ((requiredListFields name).all fun f => lookupIsList kvs f)

/-- `json.dumps({"success": True})`, the fixed result of a file-request tool. -/
def dumpsSuccessTrue : String := "\x7b\"success\": true\x7d"

/-- `json.dumps({"error": f"Tool {tool_name} not found"})`, the result for an
unregistered tool name. -/
def dumpsToolNotFound (name : String) : String :=
  "\x7b\"error\": \"Tool " ++ name ++ " not found\"\x7d"

/-- JSON string escaping as performed by the serializers (quotes and
backslashes; other modelled characters pass through). -/
def escapeJson (s : String) : String :=
  s.foldl (fun acc c =>
    if c = '\"' then acc ++ "\\\""
    else if c = '\\' then acc ++ "\\\\"
    else acc.push c) ""

/-- `json.dumps` applied to a Python string value: the value is quoted and
escaped.  `Agent.call_tool` (agent.py line 126) applies `json.dumps` to the
result of `execute_tool_request_file`, which is itself already a serialized
JSON string, so the `tool` turn's content is this double encoding of the
result. -/
def dumpsStr (s : String) : String := "\"" ++ escapeJson s ++ "\""

/-- `execute_tool_request_file` (tools.py lines 411-431).  Steps, in source
order: `json.loads` of the argument string (raises on malformed JSON); the
`shortened_args` logging loop, which calls `len(v)` on every argument value
(raises `TypeError` on scalars); dispatch over `JUPYTER_NOTEBOOK_TOOLS` by
class name — a file-request tool returns `({"success": true}, args["path"])`
without constructing or running the tool (a missing or non-string `path` makes
the subscription/`split` fail), any other registered tool is constructed
(pydantic validation) and executed; an unregistered name yields a structured
error result with no artifact path. -/
def execute_tool_request_file (h : Handler) (name : String) (args : ToolArgs) :
    Except PyError (String × Option String) :=
  match args with
  | ToolArgs.malformed => Except.error PyError.jsonDecodeError
  | ToolArgs.fields kvs =>
    if !sizedOk kvs then Except.error PyError.typeError
    else if JUPYTER_NOTEBOOK_TOOL_NAMES.contains name then
      if FILE_REQUEST_TOOLS.contains name then
        match List.lookup "path" kvs with
        | some (ArgVal.vstr p) => Except.ok (dumpsSuccessTrue, some p)
        | some _ => Except.error PyError.typeError
        | none => Except.error PyError.keyError
      else if validateArgs name kvs then Except.ok (h name kvs, none)
      else Except.error PyError.validationError
    else Except.ok (dumpsToolNotFound name, none)

/- ---------------------------------------------------------------------------
Embedding of `src/illuminate/agents/agent.py`
--------------------------------------------------------------------------- -/

/-- The base64 alphabet used by `base64.b64encode`. -/
def b64Alphabet : List Char :=
  "ABCDEFGHIJKLMNOPQRSTUVWXYZabcdefghijklmnopqrstuvwxyz0123456789+/".toList

/-- One base64 output character. -/
def b64Char (n : Nat) : Char := b64Alphabet.getD (n % 64) (Char.ofNat 65)

/-- `base64.b64encode(...).decode("utf-8")` on a byte sequence. -/
def base64encode : List Nat → String
  | [] => ""
  | [a] =>
    String.mk [b64Char (a % 256 / 4), b64Char (a % 4 * 16)] ++ "=="
  | [a, b] =>
    String.mk [b64Char (a % 256 / 4), b64Char (a % 4 * 16 + b % 256 / 16),
               b64Char (b % 16 * 4)] ++ "="
  | a :: b :: c :: rest =>
    String.mk [b64Char (a % 256 / 4), b64Char (a % 4 * 16 + b % 256 / 16),
               b64Char (b % 16 * 4 + c % 256 / 64), b64Char (c % 64)] ++
    base64encode rest

/-- Split a character list at every `.` (Python `str.split(".")`: every
separator occurrence starts a new group, empty groups allowed, at least one
group). -/
def splitDots : List Char → List (List Char)
  | [] => [[]]
  | c :: rest =>
    let r := splitDots rest
    if c = Char.ofNat 46 then [] :: r
    else
      match r with
      | [] => [[c]]
      | g :: gs => (c :: g) :: gs

/-- The last element of a list of groups, with a default. -/
def lastGroup (xs : List (List Char)) (d : List Char) : List Char :=
  match xs with
  | [] => d
  | [x] => x
  | _ :: y :: rest => lastGroup (y :: rest) d

/-- `file_path.split(".")[-1]` — the extension used to choose the artifact
encoding in `Agent._add_file_request`. -/
def fileTypeOf (p : String) : String :=
  String.mk (lastGroup (splitDots p.toList) p.toList)

/-- The truncation applied by `Agent._add_message` to the audit-log copy of a
turn: textual content longer than 1000 characters is cut to 1000 characters
plus `"..."`.  (On list-valued content the source's `message["content"][:1000]
+ "..."` would raise `TypeError` when the list is longer than 1000; every call
site builds lists of at most one part, so that branch is unreachable and list
content is kept as is.) -/
def truncContent : Content → Content
  | Content.text s =>
      Content.text (if s.length > 1000 then s.take 1000 ++ "..." else s)
  | Content.parts ps => Content.parts ps

/-- The audit-log mirror of a turn (same fields, truncated content). -/
def truncTurn (t : Turn) : Turn := { t with content := truncContent t.content }

/-- `Agent._add_message`: append the turn itself (`message.copy()`) to the
in-memory `self.messages`, then write the truncated mirror to the agent's audit
log.  The copy is appended before the truncation happens, so the in-memory
entry always keeps the full content. -/
def addMessageRaw (st : AgentState) (t : Turn) : AgentState :=
  { messages := st.messages ++ [t], log := st.log ++ [truncTurn t] }

/-- The dict `{"role": "user", "content": message}` built by
`Agent.add_message` when `user=True` (all call sites pass a string). -/
def mkUserTurn (s : String) : Turn :=
  { role := "user", content := Content.text s }

/-- Append a user turn (`Agent.add_message` with `user=True`). -/
def addUserMessage (st : AgentState) (s : String) : AgentState :=
  addMessageRaw st (mkUserTurn s)

/-- `Agent.add_message` with `user=False` on a backend reply.  `dump`
instantiates the expression `parsed if isinstance(parsed, str) else
parsed.model_dump_json()` for the agent's `response_model` type: it is the
identity when the parsed payload is a string, a JSON serializer otherwise.
If the reply carries a parsed payload, one assistant turn with its
serialization is appended; if the reply carries a (non-`None`) `tool_calls`
list, a second, separate assistant turn with empty list content and the dumped
calls is appended. -/
def addAssistantMessage {α : Type} (dump : α → String) (st : AgentState)
    (m : ParsedMessage α) : AgentState :=
  let st1 :=
    match m.parsed with
    | some p =>
        addMessageRaw st { role := "assistant", content := Content.text (dump p) }
    | none => st
  match m.tool_calls with
  | some l =>
      addMessageRaw st1
        { role := "assistant", content := Content.parts [], tool_calls := some l }
  | none => st1

/-- `Agent._add_file_request`: choose the artifact encoding by file extension.
For `pdf`, upload the file (`open` may raise, the API call may fail) and append
a user turn with the file reference; for `png`/`jpg`/`jpeg`, read and
base64-encode the file and append a user turn with a data-URI image part; any
other extension appends nothing. -/
def addFileRequest (env : Env) (st : AgentState) (p : String) :
    Except PyError AgentState :=
  let ft := fileTypeOf p
  if ft = "pdf" then
    match env.read p with
    | none => Except.error PyError.fileNotFound
    | some _ =>
      match env.create p with
      | none => Except.error PyError.apiError
      | some fid =>
          Except.ok (addMessageRaw st
            { role := "user", content := Content.parts [ContentPart.file fid] })
  else if ft = "png" ∨ ft = "jpg" ∨ ft = "jpeg" then
    match env.read p with
    | none => Except.error PyError.fileNotFound
    | some bytes =>
        Except.ok (addMessageRaw st
          { role := "user",
            content := Content.parts [ContentPart.image_url
            ("data:image/" ++ ft ++ ";base64," ++ base64encode bytes)] })
  else Except.ok st

/-- `Agent.call_tool`: execute the tool request, append the `tool` turn whose
content is `json.dumps(result)` — a second serialization of the already-JSON
result string — keyed by the originating call id, then resolve an artifact
request when one was signalled.  Exceptions raised by
`execute_tool_request_file` propagate. -/
def callTool (h : Handler) (env : Env) (st : AgentState) (tc : ToolCall) :
    Except PyError AgentState :=
  match execute_tool_request_file h tc.name tc.args with
  | Except.error e => Except.error e
  | Except.ok (result, fp) =>
    let st1 := addMessageRaw st
      { role := "tool", content := Content.text (dumpsStr result),
        tool_call_id := some tc.id }
    match fp with
    | none => Except.ok st1
    | some p => addFileRequest env st1 p

/-- The `for tool_call in ...: self.call_tool(tool_call, client)` loop of
`Agent.query`: tool calls are executed strictly in the order received. -/
def runCalls (h : Handler) (env : Env) :
    List ToolCall → AgentState → Except PyError AgentState
  | [], st => Except.ok st
  | tc :: l, st =>
    match callTool h env st tc with
    | Except.error e => Except.error e
    | Except.ok st1 => runCalls h env l st1

/-- `Agent.query`: consume one backend reply, append it via `add_message`; if
it carries a non-empty `tool_calls` list (Python truthiness: `None` and `[]`
both fall through), run every call in order and recurse; otherwise return the
reply.  The backend is modelled by the list of replies it will produce, one
consumed per round trip; an empty list models a query that blocks on a backend
that never answers. -/
def runQuery {α : Type} (dump : α → String) (h : Handler) (env : Env) :
    List (ParsedMessage α) → AgentState →
    Except PyError (ParsedMessage α × AgentState × List (ParsedMessage α))
  | [], _ => Except.error PyError.blockedOnBackend
  | r :: rest, st =>
    let st1 := addAssistantMessage dump st r
    match r.tool_calls with
    | none => Except.ok (r, st1, rest)
    | some [] => Except.ok (r, st1, rest)
    | some (tc :: l) =>
      match runCalls h env (tc :: l) st1 with
      | Except.error e => Except.error e
      | Except.ok st2 => runQuery dump h env rest st2

/- ---------------------------------------------------------------------------
Embedding of `review_agent.py`, `planning_agent.py`, `worker_agents.py`
--------------------------------------------------------------------------- -/

/-- `f"{x}"` on a value that may be `None` (Python renders `None` as the string
`"None"`); used where `response.content` or `review.feedback` is interpolated. -/
def optStr (o : Option String) : String := o.getD "None"

/-- A JSON string literal. -/
def jsonStrLit (s : String) : String := "\"" ++ escapeJson s ++ "\""

/-- A JSON `str | None` value. -/
def jsonOptStr : Option String → String
  | none => "null"
  | some s => jsonStrLit s

/-- The pydantic model `ReviewResponse` of `review_agent.py`: an acceptance
flag plus feedback text that may be `None`.  Both fields are declared without
defaults, so both are required by validation. -/
structure ReviewResponse where
  passed : Bool
  feedback : Option String
  deriving DecidableEq, Repr

/-- A JSON value of the shapes relevant to `ReviewResponse` validation. -/
inductive JVal where
  | jstr (s : String)
  | jbool (b : Bool)
  | jnull
  deriving DecidableEq, Repr

/-- Pydantic validation of a JSON object against `ReviewResponse`
(`passed: bool`, `feedback: str | None`, both required, no validators beyond
the field types; numeric/string coercions of pydantic lax mode are omitted —
everything accepted here is accepted by the source model). -/
def validateReviewResponse (kvs : List (String × JVal)) : Option ReviewResponse :=
  match List.lookup "passed" kvs, List.lookup "feedback" kvs with
  | some (JVal.jbool b), some (JVal.jstr s) => some ⟨b, some s⟩
  | some (JVal.jbool b), some JVal.jnull => some ⟨b, none⟩
  | _, _ => none

/-- `ReviewResponse.model_dump_json()`. -/
def reviewDump (r : ReviewResponse) : String :=
  "\x7b\"passed\":" ++ (if r.passed then "true" else "false") ++
  ",\"feedback\":" ++ jsonOptStr r.feedback ++ "\x7d"

/-- `PlanningAction` of `planning_agent.py`. -/
inductive PlanningAction where
  | plan
  | user_question
  | done
  deriving DecidableEq, Repr

/-- The serialized name of a planning action. -/
def actionStr : PlanningAction → String
  | PlanningAction.plan => "plan"
  | PlanningAction.user_question => "user_question"
  | PlanningAction.done => "done"

/-- The pydantic model `PlanningResponse`. -/
structure PlanningResponse where
  action : PlanningAction
  steps_description : Option (List String) := none
  user_question : Option String := none
  final_summary : Option String := none
  deriving DecidableEq, Repr

/-- `PlanningResponse.model_dump_json()`. -/
def dumpPlanning (p : PlanningResponse) : String :=
  "\x7b\"action\":" ++ jsonStrLit (actionStr p.action) ++
  ",\"steps_description\":" ++
    (match p.steps_description with
     | none => "null"
     | some xs => "[" ++ String.intercalate "," (xs.map jsonStrLit) ++ "]") ++
  ",\"user_question\":" ++ jsonOptStr p.user_question ++
  ",\"final_summary\":" ++ jsonOptStr p.final_summary ++ "\x7d"

/-- `PlanningAgent.PLANNING_SYSTEM_PROMPT`. -/
def PLANNING_SYSTEM_PROMPT : String :=
  "\n    You are a smart, detail-oriented planning agent that is part of a team of agents that are building a data science project. The project should follow the traditional data science method of understanding the problem, inspecting and cleaning the data, conducting data analysis, doing modelling if necessary and producing a report of findings (using the HtmlToPdfTool). \n\n    You will be given a project description and a list of tools that can be used to build the project. You will need to plan the steps of the project. Your steps should be detailed and include the expected output of the step.\n\n    The agents are smart and can deal with complex multi-step tasks. Each agent is responsible for a single step of the project.\n\n    After the agent is done, another agent will review their work and provide feedback. Once both agents are happy with the step, they will give you a summary of the work they did. You can then update the plan if you need to. This process will repeat until the project is complete. When the project is complete, you will output the final summary of the project.\n\n    Your response should only contain all the steps that still need to be completed - if the agent did not successfully complete a step, you should continue to include it in your response. \n\n    At any point, you can ask the user for clarifications on the project description or the steps.\n\n    Set the PlanningResponse.action to plan if you are outputting a list of steps (each step should be its own string). Otherwise, set the action to user_question if you need to ask the user a question. Set the action to done if you are done with the project and are outputting a final summary.\n    "

/-- `ReviewAgent.REVIEW_SYSTEM_PROMPT`. -/
def REVIEW_SYSTEM_PROMPT : String :=
  "\n    You are a smart, detail-oriented review agent that is part of a team of agents that are building a data science project. The project has high standards in terms of thoroughness and optimality of the solution. Don\x27t accept mediocre work. \n\n    You will be given the user\x27s initial prompt, a worker\x27s task and the work done by the worker. The worker has done the task in the current working directory.\n\n    You will need to review the work done by the worker and provide feedback on what needs to be improved. The worker does not need to complete the entire user\x27s request - just the task they have been assigned.\n\n    Use the tools provided to review the work done by the worker (including checking the files they created).\n\n    If the work is good, set the passed to True.\n    Otherwise, set the passed to False and provide feedback on what needs to be improved.\n    "

/-- `WorkerAgent.WORKER_AGENT_SYSTEM_PROMPT`. -/
def WORKER_AGENT_SYSTEM_PROMPT : String :=
  "\n    You are a smart, detail-oriented worker agent that is part of a team of agents that are building a data science project. You are responsible for completing a step of the project to the best of your abilities. Don\x27t take shortcuts. Be certain that your approach is the best possible approach.\n\n    You will be given a step description, and a summary of any previous steps. Upon completing the step, you will summarize all the work you did in enough detail so that another agent can review your work and provide feedback. Make sure your summary describes what you did and why you did it (unless it\x27s obvious). When your reviewer is happy with your work, you will output a complete summary of your work.\n\n    Prefer creating files to communicate information with other agents.\n\n    Keep in mind that a future data scientist will be building on your work.\n    "

/-- `Agent.__post_init__`: a fresh agent state holds exactly the seeded
`system` turn. -/
def initAgentState (systemPrompt : String) : AgentState :=
  addMessageRaw ⟨[], []⟩ { role := "system", content := Content.text systemPrompt }

/-- Constructing an `Agent`: the dataclass (agent.py lines 22-30) declares
`tools` with no default, so a generated `__init__` call that omits it raises
`TypeError` before any field is set; a call that passes it succeeds and
`__post_init__` seeds the system turn.  `WorkerAgent` and `IpynbAgent` pass
`tools`; `ReviewAgent` (review_agent.py lines 34-41) and `PlanningAgent`
(planning_agent.py lines 53-60) omit it. -/
def agentConstruct (systemPrompt : String) (tools_passed : Bool) :
    Except PyError AgentState :=
  if tools_passed then Except.ok (initAgentState systemPrompt)
  else Except.error PyError.typeError

/-- The message-history part of a `WorkerAgent` right after construction
(system turn plus the seeding user turn built from the user prompt, the work
done so far and the step description). -/
def workerInit (userPrompt workSoFar step : String) : AgentState :=
  addUserMessage (initAgentState WORKER_AGENT_SYSTEM_PROMPT)
    ("The user prompt is: " ++ userPrompt ++
     "\n\n The work done so far is: " ++ workSoFar ++
     "\n\n Your job is to complete the following step: " ++ step)

/-- `ReviewAgent.__init__`: the `super().__init__` call omits the required
`tools` dataclass field, so construction raises `TypeError` unconditionally;
the seeding user turn below it is never reached. -/
def reviewerInit (userPrompt workerTask workerWork : String) :
    Except PyError AgentState :=
  match agentConstruct REVIEW_SYSTEM_PROMPT false with
  | Except.error e => Except.error e
  | Except.ok st =>
      Except.ok (addUserMessage st
        ("User prompt: " ++ userPrompt ++ "\n\nWorker task: " ++ workerTask ++
         "\n\nWorker work: " ++ workerWork))

/-- `f"WorkerAgent{id}"`. -/
def workerName (id : Nat) : String := "WorkerAgent" ++ toString id

/-- `WorkerAgent.run`: query to completion and return `response.content`.
Workers have no `response_model`, so their parsed payload (if the stream ever
carried one) would be a plain string and `dump` is the identity. -/
def workerRun (h : Handler) (env : Env) (resp : List (ParsedMessage String))
    (st : AgentState) :
    Except PyError (Option String × AgentState × List (ParsedMessage String)) :=
  match runQuery id h env resp st with
  | Except.error e => Except.error e
  | Except.ok (m, st1, rest) => Except.ok (m.content, st1, rest)

/-- `ReviewAgent.run`: query to completion and return `response.parsed`.  A
reply without a parsed payload makes the caller's attribute accesses
(`review.passed`) raise. -/
def reviewerRun (h : Handler) (env : Env)
    (resp : List (ParsedMessage ReviewResponse)) (st : AgentState) :
    Except PyError (ReviewResponse × AgentState × List (ParsedMessage ReviewResponse)) :=
  match runQuery reviewDump h env resp st with
  | Except.error e => Except.error e
  | Except.ok (m, st1, rest) =>
    match m.parsed with
    | none => Except.error PyError.attributeError
    | some rv => Except.ok (rv, st1, rest)

/-- The state of a `PlanningAgent`: its conversation plus the `self.plan`
attribute (initially `[]`, overwritten with `steps_description` — possibly
`None` — whenever a plan action is parsed). -/
structure PlannerState where
  state : AgentState
  plan : Option (List String)
  deriving DecidableEq, Repr

/-- `PlanningAgent.__init__`: the `super().__init__` call omits the required
`tools` dataclass field, so construction raises `TypeError` unconditionally;
the seeding user turn and `self.plan = []` below it are never reached. -/
def plannerInit (userPrompt : String) : Except PyError PlannerState :=
  match agentConstruct PLANNING_SYSTEM_PROMPT false with
  | Except.error e => Except.error e
  | Except.ok st => Except.ok ⟨addUserMessage st userPrompt, some []⟩

/-- The payload paired with the action in `PlanningAgent.run`'s return value:
`self.plan` for a plan action, `final_summary` for completion. -/
inductive PlanPayload where
  | steps (o : Option (List String))
  | summary (o : Option String)
  deriving DecidableEq, Repr

/-- `PlanningAgent.run` together with `PlanningAgent.ask_user`.  The external
input channel is the list `inputs`, one entry read per `UserQuestion`.  A plan
or done action returns immediately; a user-question action reads one input:
the sentinel `"exit"` makes the function return `(None, None)` (modelled
`none`), any other input is appended to the planner's state as a user turn and
the planner re-queried.  The returned quadruple carries the result, the new
planner state and the unconsumed suffixes of both streams. -/
def planningRun (h : Handler) (env : Env) :
    List String → List (ParsedMessage PlanningResponse) → PlannerState →
    Except PyError (Option (PlanningAction × PlanPayload) × PlannerState ×
      List (ParsedMessage PlanningResponse) × List String)
  | inputs, resp, pst =>
    match runQuery dumpPlanning h env resp pst.state with
    | Except.error e => Except.error e
    | Except.ok (m, st1, rest) =>
      match m.parsed with
      | none => Except.error PyError.attributeError
      | some pr =>
        match pr.action with
        | PlanningAction.plan =>
            Except.ok
              (some (PlanningAction.plan, PlanPayload.steps pr.steps_description),
               ⟨st1, pr.steps_description⟩, rest, inputs)
        | PlanningAction.done =>
            Except.ok
              (some (PlanningAction.done, PlanPayload.summary pr.final_summary),
               ⟨st1, pst.plan⟩, rest, inputs)
        | PlanningAction.user_question =>
          match inputs with
          | [] => Except.error PyError.blockedOnInput
          | i :: is =>
            if i = "exit" then Except.ok (none, ⟨st1, pst.plan⟩, rest, is)
            else planningRun h env is rest ⟨addUserMessage st1 i, pst.plan⟩
  termination_by inputs _ _ => inputs.length

/- ---------------------------------------------------------------------------
Embedding of `agent_system.py`
--------------------------------------------------------------------------- -/

/-- The state of an `AgentSystem` visible across steps: the user prompt, the
long-lived planning agent, the accumulated `work_done` summaries and the step
counter. -/
structure SysState where
  userPrompt : String
  planner : PlannerState
  work_done : List String
  step_id : Nat
  deriving DecidableEq, Repr

/-- `AgentSystem.__init__`: constructs the `PlanningAgent`, whose constructor
raises (see `plannerInit`), so the system itself cannot be constructed in the
source. -/
def sysInit (userPrompt : String) : Except PyError SysState :=
  match plannerInit userPrompt with
  | Except.error e => Except.error e
  | Except.ok pst => Except.ok ⟨userPrompt, pst, [], 0⟩

/-- `AgentSystem.add_work_done`: the string appended to `self.work_done`. -/
def workDoneEntry (agentName : String) (w : Option String) : String :=
  agentName ++ " did the following work: " ++ optStr w

/-- The `while True` review loop inside `AgentSystem.worker_step`, driven by
the reviewer's verdicts.  `fuel` bounds the number of iterations modelled
(`Except.ok none` means the loop was still running when the fuel ran out; the
source loop has no iteration cap).  On acceptance: the worker is instructed by
a user turn to summarize, re-run, the summary is recorded in `work_done` and
`self.work_done[-1]` is appended to the planner's state as a user turn, and the
loop exits.  On rejection: the feedback is appended to the worker as a user
turn, the worker re-runs, its new output is appended to the reviewer as a user
turn, and the reviewer is re-queried; the planner is not touched. -/
def reviewLoop (h : Handler) (env : Env) :
    Nat → AgentState → AgentState → List (ParsedMessage ReviewResponse) →
    List (ParsedMessage String) → SysState →
    Except PyError (Option (SysState × AgentState × AgentState))
  | 0, _, _, _, _, _ => Except.ok none
  | fuel+1, revSt, wSt, rResp, wResp, sys =>
    match reviewerRun h env rResp revSt with
    | Except.error e => Except.error e
    | Except.ok (rv, revSt1, rRest) =>
      if rv.passed then
        let wSt1 := addUserMessage wSt
          "The reviewer has passed the work. Providing a summary of all the work you did."
        match workerRun h env wResp wSt1 with
        | Except.error e => Except.error e
        | Except.ok (w2, wSt2, _) =>
          let wd := sys.work_done ++ [workDoneEntry (workerName sys.step_id) w2]
          let planner1 : PlannerState :=
            ⟨addUserMessage sys.planner.state (wd.getLastD ""), sys.planner.plan⟩
          Except.ok (some ({sys with work_done := wd, planner := planner1}, wSt2, revSt1))
      else
        let wSt1 := addUserMessage wSt
          ("The reviewer has given the following feedback: " ++ optStr rv.feedback)
        match workerRun h env wResp wSt1 with
        | Except.error e => Except.error e
        | Except.ok (w2, wSt2, wRest) =>
          let revSt2 := addUserMessage revSt1
            ("The worker has made the following changes: " ++ optStr w2)
          reviewLoop h env fuel revSt2 wSt2 rRest wRest sys

/-- `AgentSystem.worker_step`: bump the step counter, build a fresh worker on
`plan[0]` (`plan` being `None` or empty raises), run it once, then construct
the fresh reviewer seeded with the worker's first output — the worker's run
happens while evaluating the `ReviewAgent(...)` arguments, after which the
constructor raises `TypeError` (see `reviewerInit`), so the review loop below
is never entered in the source.  `wResp` and `rResp` are the backend reply
streams of the fresh worker and reviewer. -/
def worker_step (h : Handler) (env : Env) (fuel : Nat) (sys : SysState)
    (plan : Option (List String)) (wResp : List (ParsedMessage String))
    (rResp : List (ParsedMessage ReviewResponse)) :
    Except PyError (Option SysState) :=
  let sys1 := {sys with step_id := sys.step_id + 1}
  match plan with
  | none => Except.error PyError.typeError
  | some [] => Except.error PyError.indexError
  | some (step :: _) =>
    let wSt0 := workerInit sys1.userPrompt (String.intercalate "\n" sys1.work_done) step
    match workerRun h env wResp wSt0 with
    | Except.error e => Except.error e
    | Except.ok (w1, wSt1, wRest) =>
      match reviewerInit sys1.userPrompt step (optStr w1) with
      | Except.error e => Except.error e
      | Except.ok rSt0 =>
        match reviewLoop h env fuel rSt0 wSt1 rResp wRest sys1 with
        | Except.error e => Except.error e
        | Except.ok none => Except.ok none
        | Except.ok (some (sys2, _, _)) => Except.ok (some sys2)

/-- How `AgentSystem.run` ends (the `plan_printed` flag only gates a log line
and is not modelled). -/
inductive RunOutcome where
  | completed (summary : PlanPayload)
  | aborted
  | raisedNotImplemented
  | outOfFuel
  deriving DecidableEq, Repr

/-- `AgentSystem.run`: the outer `while True` loop, with `fuel` bounding the
modelled iterations and `steps` supplying one pair of worker/reviewer backend
streams per executed plan step.  A done action breaks with the summary; a plan
action runs `worker_step` on the returned plan and loops; a user-question
action would raise `NotImplementedError` (`raisedNotImplemented`); a `None`
action (the exit sentinel was read) returns, which we record as `aborted`. -/
def systemRun (h : Handler) (env : Env) (stepFuel : Nat) :
    Nat → List String → List (ParsedMessage PlanningResponse) →
    List (List (ParsedMessage String) × List (ParsedMessage ReviewResponse)) →
    SysState → Except PyError (RunOutcome × SysState)
  | 0, _, _, _, sys => Except.ok (RunOutcome.outOfFuel, sys)
  | fuel+1, inputs, resp, steps, sys =>
    match planningRun h env inputs resp sys.planner with
    | Except.error e => Except.error e
    | Except.ok (res, pst1, rest, inputs1) =>
      let sys1 := {sys with planner := pst1}
      match res with
      | some (PlanningAction.done, payload) =>
          Except.ok (RunOutcome.completed payload, sys1)
      | some (PlanningAction.plan, payload) =>
        match steps with
        | [] => Except.error PyError.blockedOnBackend
        | (wResp, rResp) :: steps1 =>
          let planArg := match payload with
            | PlanPayload.steps o => o
            | PlanPayload.summary _ => none
          match worker_step h env stepFuel sys1 planArg wResp rResp with
          | Except.error e => Except.error e
          | Except.ok none => Except.ok (RunOutcome.outOfFuel, sys1)
          | Except.ok (some sys2) =>
              systemRun h env stepFuel fuel inputs1 rest steps1 sys2
      | some (PlanningAction.user_question, _) =>
          Except.ok (RunOutcome.raisedNotImplemented, sys1)
      | none => Except.ok (RunOutcome.aborted, sys1)

/- ---------------------------------------------------------------------------
Derived specifications of one tool-call round (proof support)
--------------------------------------------------------------------------- -/

/-- Whether resolving an artifact request for `fp` succeeds (no exception in
`Agent._add_file_request`). -/
def fileReqOk (env : Env) : Option String → Bool
  | none => true
  | some p =>
    let ft := fileTypeOf p
    if ft = "pdf" then ((env.read p).isSome && (env.create p).isSome)
    else if ft = "png" ∨ ft = "jpg" ∨ ft = "jpeg" then (env.read p).isSome
    else true

/-- Whether `Agent.call_tool` completes without raising for this call. -/
def callOk (h : Handler) (env : Env) (tc : ToolCall) : Bool :=
  match execute_tool_request_file h tc.name tc.args with
  | Except.ok (_, fp) => fileReqOk env fp
  | Except.error _ => false

/-- The turns `Agent._add_file_request` appends for an artifact request (empty
for no request, for an unhandled extension, or in the error cases). -/
def artifactTurns (env : Env) : Option String → List Turn
  | none => []
  | some p =>
    let ft := fileTypeOf p
    if ft = "pdf" then
      match env.read p, env.create p with
      | some _, some fid =>
          [{ role := "user", content := Content.parts [ContentPart.file fid] }]
      | _, _ => []
    else if ft = "png" ∨ ft = "jpg" ∨ ft = "jpeg" then
      match env.read p with
      | some bytes =>
          [{ role := "user",
             content := Content.parts [ContentPart.image_url
             ("data:image/" ++ ft ++ ";base64," ++ base64encode bytes)] }]
      | none => []
    else []

/-- The turns one successful `Agent.call_tool` appends: the `tool` turn keyed
by the call id (content double-encoded, see `dumpsStr`), followed by the
artifact turns if an artifact was requested. -/
def callTurns1 (h : Handler) (env : Env) (tc : ToolCall) : List Turn :=
  match execute_tool_request_file h tc.name tc.args with
  | Except.error _ => []
  | Except.ok (result, fp) =>
    { role := "tool", content := Content.text (dumpsStr result),
      tool_call_id := some tc.id } :: artifactTurns env fp

/-- The JSON result string of a successful tool execution. -/
def execResultStr (h : Handler) (tc : ToolCall) : String :=
  match execute_tool_request_file h tc.name tc.args with
  | Except.ok (result, _) => result
  | Except.error _ => ""

/-- The `tool` turn produced for one call. -/
def toolResultTurn (h : Handler) (tc : ToolCall) : Turn :=
  { role := "tool", content := Content.text (dumpsStr (execResultStr h tc)),
    tool_call_id := some tc.id }

/-- A concrete capability handler for witness scenarios. -/
def hW : Handler := fun n _ => "\x7b\"ran\": \"" ++ n ++ "\"\x7d"

/-- A concrete environment for witness scenarios: every file holds the three
bytes 1, 2, 3 and every upload succeeds. -/
def envW : Env := ⟨fun _ => some [1, 2, 3], fun p => some ("file-" ++ p)⟩

/-- A sequence of `Agent._add_message` appends. -/
def appendTurns (st : AgentState) (ts : List Turn) : AgentState :=
  ts.foldl addMessageRaw st

/-- `false` exactly when `PlanningAgent.run` returned the user-question
action. -/
def planningSane (res : Except PyError (Option (PlanningAction × PlanPayload) ×
    PlannerState × List (ParsedMessage PlanningResponse) × List String)) : Bool :=
  match res with
  | Except.ok (some (PlanningAction.user_question, _), _, _, _) => false
  | _ => true

/-- `false` exactly when `AgentSystem.run` hit the `NotImplementedError`
branch. -/
def runSane (res : Except PyError (RunOutcome × SysState)) : Bool :=
  match res with
  | Except.ok (RunOutcome.raisedNotImplemented, _) => false
  | _ => true

/-- Initial system state of the concrete review-step scenario. -/
def wsSys : SysState := ⟨"u", ⟨⟨[], []⟩, some []⟩, [], 0⟩

/-- Worker backend stream of the concrete review-step scenario (only the
first reply is ever consumed: the reviewer construction raises right after
the worker's first run). -/
def wsWResp : List (ParsedMessage String) :=
  [⟨some "w1", none, none⟩, ⟨some "sum", none, none⟩]

/-- Reviewer backend stream that accepts at once. -/
def wsRPass : List (ParsedMessage ReviewResponse) :=
  [⟨some "", some ⟨true, none⟩, none⟩]

/-- `true` exactly when a `worker_step` call returned a resolved step. -/
def stepResolved (res : Except PyError (Option SysState)) : Bool :=
  match res with
  | Except.ok (some _) => true
  | _ => false

theorem addMessageRaw_messages (st : AgentState) (t : Turn) :
    (addMessageRaw st t).messages = st.messages ++ [t] := rfl

theorem addMessageRaw_log (st : AgentState) (t : Turn) :
    (addMessageRaw st t).log = st.log ++ [truncTurn t] := rfl

/-- A successful `_add_file_request` appends exactly `artifactTurns`. -/
theorem addFileRequest_ok (env : Env) (st : AgentState) (p : String)
    (hok : fileReqOk env (some p) = true) :
    addFileRequest env st p =
      Except.ok ⟨st.messages ++ artifactTurns env (some p),
                 st.log ++ (artifactTurns env (some p)).map truncTurn⟩ := by
  unfold addFileRequest artifactTurns
  unfold fileReqOk at hok
  by_cases hpdf : fileTypeOf p = "pdf"
  · simp only [hpdf, if_pos rfl] at hok ⊢
    cases hr : env.read p with
    | none => simp [hr] at hok
    | some bytes =>
      cases hc : env.create p with
      | none => simp [hr, hc] at hok
      | some fid => simp [hr, hc, addMessageRaw]
  · by_cases himg : fileTypeOf p = "png" ∨ fileTypeOf p = "jpg" ∨ fileTypeOf p = "jpeg"
    · simp only [if_neg hpdf, if_pos himg] at hok ⊢
      cases hr : env.read p with
      | none => simp [hr] at hok
      | some bytes => simp [hr, addMessageRaw]
    · simp only [if_neg hpdf, if_neg himg]
      cases st
      simp

/-- A successful `call_tool` appends exactly `callTurns1`. -/
theorem callTool_ok (h : Handler) (env : Env) (st : AgentState) (tc : ToolCall)
    (hok : callOk h env tc = true) :
    callTool h env st tc =
      Except.ok ⟨st.messages ++ callTurns1 h env tc,
                 st.log ++ (callTurns1 h env tc).map truncTurn⟩ := by
  unfold callOk at hok
  unfold callTool callTurns1
  cases hex : execute_tool_request_file h tc.name tc.args with
  | error e => simp [hex] at hok
  | ok out =>
    obtain ⟨result, fp⟩ := out
    simp only [hex] at hok ⊢
    cases fp with
    | none =>
      cases st
      simp [artifactTurns, addMessageRaw]
    | some p =>
      dsimp only
      rw [addFileRequest_ok env _ p hok]
      simp [addMessageRaw]

/-- A sequence of successful calls appends the concatenation of their turns,
in order. -/
theorem runCalls_ok (h : Handler) (env : Env) (l : List ToolCall)
    (hok : ∀ tc ∈ l, callOk h env tc = true) (st : AgentState) :
    runCalls h env l st =
      Except.ok ⟨st.messages ++ l.flatMap (callTurns1 h env),
                 st.log ++ (l.flatMap (callTurns1 h env)).map truncTurn⟩ := by
  induction l generalizing st with
  | nil => cases st; simp [runCalls]
  | cons tc l ih =>
    have htc : callOk h env tc = true := hok tc (List.mem_cons_self tc l)
    have hl : ∀ tc2 ∈ l, callOk h env tc2 = true :=
      fun tc2 hm => hok tc2 (List.mem_cons_of_mem tc hm)
    simp only [runCalls]
    rw [callTool_ok h env st tc htc]
    dsimp only
    rw [ih hl]
    simp

/-- The `tool`-role turns among the turns of one successful call are exactly
the single result turn for that call. -/
theorem callTurns1_filter_tool (h : Handler) (env : Env) (tc : ToolCall)
    (hok : callOk h env tc = true) :
    (callTurns1 h env tc).filter (fun t => t.role == "tool") =
      [toolResultTurn h tc] := by
  unfold callOk at hok
  unfold callTurns1 toolResultTurn execResultStr
  cases hex : execute_tool_request_file h tc.name tc.args with
  | error e => simp [hex] at hok
  | ok out =>
    obtain ⟨result, fp⟩ := out
    simp only [hex]
    have hart : (artifactTurns env fp).filter (fun t => t.role == "tool") = [] := by
      cases fp with
      | none => rfl
      | some p =>
        unfold artifactTurns
        by_cases hpdf : fileTypeOf p = "pdf"
        · simp only [hpdf, if_pos rfl]
          cases env.read p <;> cases env.create p <;> simp [List.filter]
        · by_cases himg : fileTypeOf p = "png" ∨ fileTypeOf p = "jpg" ∨ fileTypeOf p = "jpeg"
          · simp only [if_neg hpdf, if_pos himg]
            cases env.read p <;> simp [List.filter]
          · simp [if_neg hpdf, if_neg himg]
    simp [List.filter, hart]

/-- The `tool`-role turns appended by a successful call round are exactly one
result turn per pending call, in the order received. -/
theorem flatMap_callTurns1_filter_tool (h : Handler) (env : Env) (l : List ToolCall)
    (hok : ∀ tc ∈ l, callOk h env tc = true) :
    (l.flatMap (callTurns1 h env)).filter (fun t => t.role == "tool") =
      l.map (toolResultTurn h) := by
  induction l with
  | nil => rfl
  | cons tc l ih =>
    have htc : callOk h env tc = true := hok tc (List.mem_cons_self tc l)
    have hl : ∀ tc2 ∈ l, callOk h env tc2 = true :=
      fun tc2 hm => hok tc2 (List.mem_cons_of_mem tc hm)
    simp [List.flatMap_cons, List.filter_append, ih hl,
      callTurns1_filter_tool h env tc htc]

/- ---------------------------------------------------------------------------
Shared concrete scenario used by witnesses
--------------------------------------------------------------------------- -/

/- ---------------------------------------------------------------------------
C1 — Agent.query round-trip semantics
--------------------------------------------------------------------------- -/

/-- C1: in `Agent.query`, a backend reply with zero pending tool calls
(`tool_calls` either `None` or the empty list) terminates the loop and is
returned after exactly that one round trip, with the rest of the backend
stream unconsumed; a reply with pending calls `tc :: l` has all N = `(tc ::
l).length` calls executed in order before the next round trip: the state
passed to the recursive `query` extends the post-reply state by the
concatenated call turns, whose `tool`-role members are exactly one result
turn per call, in the order received, each keyed by the originating call's
id (`toolResultTurn` sets `tool_call_id := some tc.id`). -/
theorem query_round_trip_semantics {α : Type} (dump : α → String) (h : Handler)
    (env : Env) :
    (∀ (r : ParsedMessage α) (rest : List (ParsedMessage α)) (st : AgentState),
      r.tool_calls = none ∨ r.tool_calls = some [] →
      runQuery dump h env (r :: rest) st =
        Except.ok (r, addAssistantMessage dump st r, rest))
    ∧
    (∀ (r : ParsedMessage α) (rest : List (ParsedMessage α)) (st : AgentState)
       (tc : ToolCall) (l : List ToolCall),
      r.tool_calls = some (tc :: l) →
      (∀ tc2 ∈ tc :: l, callOk h env tc2 = true) →
      runCalls h env (tc :: l) (addAssistantMessage dump st r) =
        Except.ok
          ⟨(addAssistantMessage dump st r).messages ++
             (tc :: l).flatMap (callTurns1 h env),
           (addAssistantMessage dump st r).log ++
             ((tc :: l).flatMap (callTurns1 h env)).map truncTurn⟩ ∧
      ((tc :: l).flatMap (callTurns1 h env)).filter (fun t => t.role == "tool") =
        (tc :: l).map (toolResultTurn h) ∧
      runQuery dump h env (r :: rest) st =
        runQuery dump h env rest
          ⟨(addAssistantMessage dump st r).messages ++
             (tc :: l).flatMap (callTurns1 h env),
           (addAssistantMessage dump st r).log ++
             ((tc :: l).flatMap (callTurns1 h env)).map truncTurn⟩) := by
  constructor
  · intro r rest st hz
    cases hz with
    | inl hnone => simp only [runQuery, hnone]
    | inr hnil => simp only [runQuery, hnil]
  · intro r rest st tc l htc hok
    refine ⟨runCalls_ok h env (tc :: l) hok _, flatMap_callTurns1_filter_tool h env _ hok, ?_⟩
    simp only [runQuery, htc]
    rw [runCalls_ok h env (tc :: l) hok _]

/-- Witness for C1 at a concrete scenario: a reply with no tool calls is
returned after one round trip, and a reply with one pending `LsTool` call has
the call executed (one `tool` turn keyed `call_1`) before the next round
trip. -/
theorem query_round_trip_semantics_witness :
    (runQuery (α := String) id hW envW
        [⟨some "done", none, none⟩] ⟨[], []⟩ =
      Except.ok (⟨some "done", none, none⟩,
        addAssistantMessage id ⟨[], []⟩ ⟨some "done", none, none⟩, []))
    ∧
    (runCalls hW envW [⟨"call_1", "LsTool", ToolArgs.fields [("path", ArgVal.vstr ".")]⟩]
        (addAssistantMessage id ⟨[], []⟩
          ⟨none, none, some [⟨"call_1", "LsTool", ToolArgs.fields [("path", ArgVal.vstr ".")]⟩]⟩) =
      Except.ok
        ⟨(addAssistantMessage id ⟨[], []⟩
            ⟨none, none, some [⟨"call_1", "LsTool", ToolArgs.fields [("path", ArgVal.vstr ".")]⟩]⟩).messages ++
           ([⟨"call_1", "LsTool", ToolArgs.fields [("path", ArgVal.vstr ".")]⟩] : List ToolCall).flatMap
             (callTurns1 hW envW),
         (addAssistantMessage id ⟨[], []⟩
            ⟨none, none, some [⟨"call_1", "LsTool", ToolArgs.fields [("path", ArgVal.vstr ".")]⟩]⟩).log ++
           (([⟨"call_1", "LsTool", ToolArgs.fields [("path", ArgVal.vstr ".")]⟩] : List ToolCall).flatMap
             (callTurns1 hW envW)).map truncTurn⟩ ∧
      (([⟨"call_1", "LsTool", ToolArgs.fields [("path", ArgVal.vstr ".")]⟩] : List ToolCall).flatMap
          (callTurns1 hW envW)).filter (fun t => t.role == "tool") =
        ([⟨"call_1", "LsTool", ToolArgs.fields [("path", ArgVal.vstr ".")]⟩] : List ToolCall).map
          (toolResultTurn hW) ∧
      runQuery (α := String) id hW envW
          [⟨none, none, some [⟨"call_1", "LsTool", ToolArgs.fields [("path", ArgVal.vstr ".")]⟩]⟩,
           ⟨some "done", none, none⟩] ⟨[], []⟩ =
        runQuery id hW envW [⟨some "done", none, none⟩]
          ⟨(addAssistantMessage id ⟨[], []⟩
              ⟨none, none, some [⟨"call_1", "LsTool", ToolArgs.fields [("path", ArgVal.vstr ".")]⟩]⟩).messages ++
             ([⟨"call_1", "LsTool", ToolArgs.fields [("path", ArgVal.vstr ".")]⟩] : List ToolCall).flatMap
               (callTurns1 hW envW),
           (addAssistantMessage id ⟨[], []⟩
              ⟨none, none, some [⟨"call_1", "LsTool", ToolArgs.fields [("path", ArgVal.vstr ".")]⟩]⟩).log ++
             (([⟨"call_1", "LsTool", ToolArgs.fields [("path", ArgVal.vstr ".")]⟩] : List ToolCall).flatMap
               (callTurns1 hW envW)).map truncTurn⟩) :=
  ⟨(query_round_trip_semantics (α := String) id hW envW).1
      ⟨some "done", none, none⟩ [] ⟨[], []⟩ (Or.inl rfl),
   (query_round_trip_semantics (α := String) id hW envW).2
      ⟨none, none, some [⟨"call_1", "LsTool", ToolArgs.fields [("path", ArgVal.vstr ".")]⟩]⟩
      [⟨some "done", none, none⟩] ⟨[], []⟩
      ⟨"call_1", "LsTool", ToolArgs.fields [("path", ArgVal.vstr ".")]⟩ [] rfl
      (by intro tc2 hm; rw [List.mem_singleton.mp hm]; rfl)⟩

/- ---------------------------------------------------------------------------
C2 — malformed tool-call argument payloads
--------------------------------------------------------------------------- -/

/-- Counterexample to C2: a tool call on the registered `CatTool` whose
argument payload is not valid JSON makes `json.loads` raise inside
`execute_tool_request_file`; the exception propagates through `call_tool` and
`query`, so the invocation aborts with `JSONDecodeError` instead of appending
a structured error turn and continuing to the next backend round trip (the
second reply is never consumed). -/
theorem malformed_args_abort_cex :
    callTool hW envW ⟨[], []⟩ ⟨"call_1", "CatTool", ToolArgs.malformed⟩ =
      Except.error PyError.jsonDecodeError
    ∧ runQuery (α := String) id hW envW
        [⟨none, none, some [⟨"call_1", "CatTool", ToolArgs.malformed⟩]⟩,
         ⟨some "done", none, none⟩] ⟨[], []⟩ =
        Except.error PyError.jsonDecodeError := ⟨rfl, rfl⟩

/-- C2 amended: a malformed tool-call argument payload makes `json.loads`
raise `JSONDecodeError`; the exception is not caught anywhere in
`execute_tool_request_file`, `Agent.call_tool` or `Agent.query`, so the whole
agent invocation aborts; no `{"error": ...}` result turn is appended.  (Only
an unregistered tool name yields a structured error result; see C8.) -/
theorem malformed_args_raise (h : Handler) (env : Env) (st : AgentState)
    (tcid name : String) :
    (execute_tool_request_file h name ToolArgs.malformed =
      Except.error PyError.jsonDecodeError)
    ∧ (callTool h env st ⟨tcid, name, ToolArgs.malformed⟩ =
      Except.error PyError.jsonDecodeError)
    ∧ (∀ {α : Type} (dump : α → String) (r : ParsedMessage α)
         (rest : List (ParsedMessage α)) (l : List ToolCall),
        r.tool_calls = some (⟨tcid, name, ToolArgs.malformed⟩ :: l) →
        runQuery dump h env (r :: rest) st =
          Except.error PyError.jsonDecodeError) := by
  refine ⟨rfl, rfl, ?_⟩
  intro α dump r rest l htc
  simp only [runQuery, htc, runCalls, callTool, execute_tool_request_file]

/-- Witness for the amended C2 at a concrete scenario. -/
theorem malformed_args_raise_witness :
    runQuery (α := String) id hW envW
      [⟨none, none, some [⟨"call_9", "WriteFileTool", ToolArgs.malformed⟩]⟩]
      ⟨[], []⟩ = Except.error PyError.jsonDecodeError :=
  (malformed_args_raise hW envW ⟨[], []⟩ "call_9" "WriteFileTool").2.2
    id ⟨none, none, some [⟨"call_9", "WriteFileTool", ToolArgs.malformed⟩]⟩ [] [] rfl

/- ---------------------------------------------------------------------------
C3 — a reply with both parsed payload and tool calls
--------------------------------------------------------------------------- -/

/-- Counterexample to C3: a backend reply carrying both a parsed payload and a
pending tool call is recorded by `Agent.add_message` as TWO separate entries
of the message list (first the serialized content, then an assistant turn with
empty content and the calls), not as one single logical assistant turn. -/
theorem parsed_with_calls_single_turn_cex :
    (addAssistantMessage (α := String) id ⟨[], []⟩
        ⟨some "", some "the parsed payload",
         some [⟨"call_2", "LsTool", ToolArgs.fields [("path", ArgVal.vstr ".")]⟩]⟩).messages =
      [{ role := "assistant", content := Content.text "the parsed payload" },
       { role := "assistant", content := Content.parts [],
         tool_calls := some [⟨"call_2", "LsTool", ToolArgs.fields [("path", ArgVal.vstr ".")]⟩] }]
    ∧ (addAssistantMessage (α := String) id ⟨[], []⟩
        ⟨some "", some "the parsed payload",
         some [⟨"call_2", "LsTool", ToolArgs.fields [("path", ArgVal.vstr ".")]⟩]⟩).messages.length = 2 :=
  ⟨rfl, rfl⟩

/-- C3 amended: a reply carrying both a parsed payload and a (non-`None`)
tool-call list is appended as two consecutive separate assistant entries: one
holding the serialized parsed content, then one holding the empty content list
together with the dumped tool calls. -/
theorem parsed_with_calls_two_turns {α : Type} (dump : α → String)
    (st : AgentState) (m : ParsedMessage α) (p : α) (l : List ToolCall)
    (hp : m.parsed = some p) (htc : m.tool_calls = some l) :
    addAssistantMessage dump st m =
      ⟨st.messages ++
         [{ role := "assistant", content := Content.text (dump p) },
          { role := "assistant", content := Content.parts [], tool_calls := some l }],
       st.log ++
         [truncTurn { role := "assistant", content := Content.text (dump p) },
          truncTurn { role := "assistant", content := Content.parts [],
                      tool_calls := some l }]⟩ := by
  simp only [addAssistantMessage, hp, htc]
  cases st
  simp [addMessageRaw]

/-- Witness for the amended C3 at a concrete reply. -/
theorem parsed_with_calls_two_turns_witness :
    addAssistantMessage (α := String) id ⟨[], []⟩
        ⟨some "", some "payload",
         some [⟨"call_3", "CatTool", ToolArgs.fields [("path", ArgVal.vstr "a.txt")]⟩]⟩ =
      ⟨[{ role := "assistant", content := Content.text "payload" },
        { role := "assistant", content := Content.parts [],
          tool_calls := some [⟨"call_3", "CatTool", ToolArgs.fields [("path", ArgVal.vstr "a.txt")]⟩] }],
       [truncTurn { role := "assistant", content := Content.text "payload" },
        truncTurn { role := "assistant", content := Content.parts [],
                    tool_calls := some [⟨"call_3", "CatTool", ToolArgs.fields [("path", ArgVal.vstr "a.txt")]⟩] }]⟩ :=
  parsed_with_calls_two_turns id ⟨[], []⟩
    ⟨some "", some "payload",
     some [⟨"call_3", "CatTool", ToolArgs.fields [("path", ArgVal.vstr "a.txt")]⟩]⟩
    "payload" [⟨"call_3", "CatTool", ToolArgs.fields [("path", ArgVal.vstr "a.txt")]⟩] rfl rfl

/- ---------------------------------------------------------------------------
C9 — append-only conversation state vs. truncated audit log
--------------------------------------------------------------------------- -/

theorem appendTurns_spec (ts : List Turn) (st : AgentState) :
    appendTurns st ts = ⟨st.messages ++ ts, st.log ++ ts.map truncTurn⟩ := by
  induction ts generalizing st with
  | nil => cases st; simp [appendTurns]
  | cons t ts ih =>
    have hstep : appendTurns st (t :: ts) = appendTurns (addMessageRaw st t) ts := rfl
    rw [hstep, ih]
    simp [addMessageRaw]

/-- C9: after any sequence of appends the in-memory message list holds exactly
the appended turns in insertion order (its length is the number of appends; no
drops), the audit log holds the truncated mirrors, and truncation only touches
the content field of the log entry — text content is cut only beyond the fixed
1000-character bound, and the in-memory copy is never truncated. -/
theorem conversation_append_exact (st : AgentState) (ts : List Turn) :
    (appendTurns st ts).messages = st.messages ++ ts
    ∧ (appendTurns st ts).messages.length = st.messages.length + ts.length
    ∧ (appendTurns st ts).log = st.log ++ ts.map truncTurn
    ∧ (∀ t : Turn, (truncTurn t).role = t.role
        ∧ (truncTurn t).tool_calls = t.tool_calls
        ∧ (truncTurn t).tool_call_id = t.tool_call_id
        ∧ (truncTurn t).content = truncContent t.content)
    ∧ (∀ s : String, truncContent (Content.text s) =
        Content.text (if s.length > 1000 then s.take 1000 ++ "..." else s)) := by
  refine ⟨?_, ?_, ?_, fun t => ⟨rfl, rfl, rfl, rfl⟩, fun s => rfl⟩
  · rw [appendTurns_spec]
  · rw [appendTurns_spec]; simp
  · rw [appendTurns_spec]

/- ---------------------------------------------------------------------------
C5 / C10 — planning loop: exit sentinel, unreachable user-question branch
--------------------------------------------------------------------------- -/

/-- `PlanningAgent.run` never returns the user-question action: that branch
either recurses (non-exit input) or returns `(None, None)` (exit sentinel). -/
theorem planningRun_sane (h : Handler) (env : Env) :
    ∀ (inputs : List String) (resp : List (ParsedMessage PlanningResponse))
      (pst : PlannerState),
      planningSane (planningRun h env inputs resp pst) = true := by
  intro inputs
  induction inputs with
  | nil =>
    intro resp pst
    rw [planningRun]
    cases hq : runQuery dumpPlanning h env resp pst.state with
    | error e => rfl
    | ok out =>
      obtain ⟨m, st1, rest⟩ := out
      dsimp only
      cases hm : m.parsed with
      | none => simp [planningSane, hm]
      | some pr => cases ha : pr.action <;> simp [planningSane, hm, ha]
  | cons i is ih =>
    intro resp pst
    rw [planningRun]
    cases hq : runQuery dumpPlanning h env resp pst.state with
    | error e => rfl
    | ok out =>
      obtain ⟨m, st1, rest⟩ := out
      dsimp only
      cases hm : m.parsed with
      | none => simp [planningSane, hm]
      | some pr =>
        cases ha : pr.action with
        | plan => simp [planningSane, hm, ha]
        | done => simp [planningSane, hm, ha]
        | user_question =>
          by_cases hi : i = "exit"
          · simp [planningSane, hm, ha, hi]
          · simp only [hm, ha, if_neg hi]
            exact ih rest ⟨addUserMessage st1 i, pst.plan⟩

/-- `AgentSystem.run` never reaches the `NotImplementedError` branch. -/
theorem systemRun_sane (h : Handler) (env : Env) (stepFuel : Nat) :
    ∀ (fuel : Nat) (inputs : List String)
      (resp : List (ParsedMessage PlanningResponse))
      (steps : List (List (ParsedMessage String) × List (ParsedMessage ReviewResponse)))
      (sys : SysState),
      runSane (systemRun h env stepFuel fuel inputs resp steps sys) = true := by
  intro fuel
  induction fuel with
  | zero => intro inputs resp steps sys; rfl
  | succ fuel ih =>
    intro inputs resp steps sys
    rw [systemRun]
    cases hq : planningRun h env inputs resp sys.planner with
    | error e => rfl
    | ok out =>
      obtain ⟨res, pst1, rest, inputs1⟩ := out
      dsimp only
      cases res with
      | none => rfl
      | some ap =>
        obtain ⟨a, payload⟩ := ap
        cases a with
        | done => rfl
        | user_question =>
          have hs := planningRun_sane h env inputs resp sys.planner
          rw [hq] at hs
          simp [planningSane] at hs
        | plan =>
          cases steps with
          | nil => rfl
          | cons stepStreams steps1 =>
            obtain ⟨wResp, rResp⟩ := stepStreams
            dsimp only
            cases payload with
            | summary o =>
              cases hw : worker_step h env stepFuel
                  {sys with planner := pst1} none wResp rResp with
              | error e => rfl
              | ok o2 =>
                cases o2 with
                | none => rfl
                | some sys2 => exact ih inputs1 rest steps1 sys2
            | steps o =>
              cases hw : worker_step h env stepFuel
                  {sys with planner := pst1} o wResp rResp with
              | error e => rfl
              | ok o2 =>
                cases o2 with
                | none => rfl
                | some sys2 => exact ih inputs1 rest steps1 sys2

/-- C10: the planning controller's user-question branch in `AgentSystem.run`
is unreachable.  `PlanningAgent.run` resolves user questions internally
(re-querying on ordinary input, returning `(None, None)` on the exit
sentinel), so it never hands the user-question action back to the outer loop,
and `AgentSystem.run` never raises its `NotImplementedError` — for any
backend-reply stream, input stream, step streams and fuel. -/
theorem user_question_branch_unreachable (h : Handler) (env : Env) :
    (∀ (inputs : List String) (resp : List (ParsedMessage PlanningResponse))
       (pst : PlannerState),
        planningSane (planningRun h env inputs resp pst) = true)
    ∧ (∀ (stepFuel fuel : Nat) (inputs : List String)
         (resp : List (ParsedMessage PlanningResponse))
         (steps : List (List (ParsedMessage String) × List (ParsedMessage ReviewResponse)))
         (sys : SysState),
        runSane (systemRun h env stepFuel fuel inputs resp steps sys) = true) :=
  ⟨planningRun_sane h env,
   fun stepFuel => systemRun_sane h env stepFuel⟩

/-- C5: when the planner's reply is a user question (no pending tool calls),
reading the sentinel `"exit"` makes `PlanningAgent.run` return `(None, None)`
with the backend stream otherwise unconsumed, and `AgentSystem.run` then
terminates in the aborted state without any further backend call; any other
input is appended to the planner's conversation as a user turn and the planner
is re-queried, with `self.plan` and everything else unchanged. -/
theorem exit_sentinel_aborts (h : Handler) (env : Env) (sys : SysState)
    (r : ParsedMessage PlanningResponse) (pr : PlanningResponse)
    (rest : List (ParsedMessage PlanningResponse)) (is : List String)
    (steps : List (List (ParsedMessage String) × List (ParsedMessage ReviewResponse)))
    (stepFuel fuel : Nat)
    (hp : r.parsed = some pr) (ha : pr.action = PlanningAction.user_question)
    (ht : r.tool_calls = none) :
    (planningRun h env ("exit" :: is) (r :: rest) sys.planner =
      Except.ok (none,
        ⟨addAssistantMessage dumpPlanning sys.planner.state r, sys.planner.plan⟩,
        rest, is))
    ∧ (systemRun h env stepFuel (fuel + 1) ("exit" :: is) (r :: rest) steps sys =
      Except.ok (RunOutcome.aborted,
        {sys with planner := ⟨addAssistantMessage dumpPlanning sys.planner.state r,
                              sys.planner.plan⟩}))
    ∧ (∀ i : String, i ≠ "exit" →
        planningRun h env (i :: is) (r :: rest) sys.planner =
          planningRun h env is rest
            ⟨addUserMessage (addAssistantMessage dumpPlanning sys.planner.state r) i,
             sys.planner.plan⟩) := by
  have h1 : runQuery dumpPlanning h env (r :: rest) sys.planner.state =
      Except.ok (r, addAssistantMessage dumpPlanning sys.planner.state r, rest) := by
    simp only [runQuery, ht]
  have hexit : planningRun h env ("exit" :: is) (r :: rest) sys.planner =
      Except.ok (none,
        ⟨addAssistantMessage dumpPlanning sys.planner.state r, sys.planner.plan⟩,
        rest, is) := by
    rw [planningRun, h1]
    simp only [hp, ha]
    rfl
  refine ⟨hexit, ?_, ?_⟩
  · rw [systemRun, hexit]
  · intro i hi
    rw [planningRun, h1]
    simp only [hp, ha]
    rw [if_neg hi]

/-- Witness for C5 at a concrete scenario (question reply, inputs `"exit"`
resp. `"use the mean"`). -/
theorem exit_sentinel_aborts_witness :
    (planningRun hW envW ["exit"]
        [⟨some "", some ⟨PlanningAction.user_question, none,
            some "Should I drop rows with nulls?", none⟩, none⟩]
        (⟨"u", ⟨⟨[], []⟩, some []⟩, [], 0⟩ : SysState).planner =
      Except.ok (none,
        ⟨addAssistantMessage dumpPlanning
            (⟨"u", ⟨⟨[], []⟩, some []⟩, [], 0⟩ : SysState).planner.state
            ⟨some "", some ⟨PlanningAction.user_question, none,
               some "Should I drop rows with nulls?", none⟩, none⟩,
         (⟨"u", ⟨⟨[], []⟩, some []⟩, [], 0⟩ : SysState).planner.plan⟩, [], []))
    ∧ (systemRun hW envW 0 (0 + 1) ["exit"]
        [⟨some "", some ⟨PlanningAction.user_question, none,
            some "Should I drop rows with nulls?", none⟩, none⟩] []
        (⟨"u", ⟨⟨[], []⟩, some []⟩, [], 0⟩ : SysState) =
      Except.ok (RunOutcome.aborted,
        {(⟨"u", ⟨⟨[], []⟩, some []⟩, [], 0⟩ : SysState) with
          planner := ⟨addAssistantMessage dumpPlanning
              (⟨"u", ⟨⟨[], []⟩, some []⟩, [], 0⟩ : SysState).planner.state
              ⟨some "", some ⟨PlanningAction.user_question, none,
                 some "Should I drop rows with nulls?", none⟩, none⟩,
            (⟨"u", ⟨⟨[], []⟩, some []⟩, [], 0⟩ : SysState).planner.plan⟩}))
    ∧ (planningRun hW envW ["use the mean"]
        [⟨some "", some ⟨PlanningAction.user_question, none,
            some "Should I drop rows with nulls?", none⟩, none⟩]
        (⟨"u", ⟨⟨[], []⟩, some []⟩, [], 0⟩ : SysState).planner =
      planningRun hW envW [] []
        ⟨addUserMessage (addAssistantMessage dumpPlanning
            (⟨"u", ⟨⟨[], []⟩, some []⟩, [], 0⟩ : SysState).planner.state
            ⟨some "", some ⟨PlanningAction.user_question, none,
               some "Should I drop rows with nulls?", none⟩, none⟩) "use the mean",
         (⟨"u", ⟨⟨[], []⟩, some []⟩, [], 0⟩ : SysState).planner.plan⟩) := by
  have T := exit_sentinel_aborts hW envW (⟨"u", ⟨⟨[], []⟩, some []⟩, [], 0⟩ : SysState)
    ⟨some "", some ⟨PlanningAction.user_question, none,
       some "Should I drop rows with nulls?", none⟩, none⟩
    ⟨PlanningAction.user_question, none, some "Should I drop rows with nulls?", none⟩
    [] [] [] 0 0 rfl rfl rfl
  exact ⟨T.1, T.2.1, T.2.2 "use the mean" (by decide)⟩

/- ---------------------------------------------------------------------------
C7 — artifact-requesting capabilities (ViewImage / ViewPDF)
--------------------------------------------------------------------------- -/

/-- C7: for a tool call to a file-request capability (`ViewImageTool` or
`ViewPDFTool`) with a string `path` argument, `execute_tool_request_file`
returns the success result together with the requested artifact path without
running any handler (the result is the same for every handler), and
`Agent.call_tool` appends the follow-up `user` turn carrying the encoded
artifact immediately after the `tool`-result turn: a base64 data URI for a
`png`/`jpg`/`jpeg` extension, an uploaded-file reference for `pdf`. -/
theorem view_tool_artifact_flow (h : Handler) (env : Env) (st : AgentState)
    (tcid p name : String) (kvs : List (String × ArgVal))
    (hn : FILE_REQUEST_TOOLS.contains name = true)
    (hs : sizedOk kvs = true)
    (hp : List.lookup "path" kvs = some (ArgVal.vstr p)) :
    (∀ h2 : Handler, execute_tool_request_file h2 name (ToolArgs.fields kvs) =
      Except.ok (dumpsSuccessTrue, some p))
    ∧ (∀ bytes : List Nat,
        (fileTypeOf p = "png" ∨ fileTypeOf p = "jpg" ∨ fileTypeOf p = "jpeg") →
        env.read p = some bytes →
        callTool h env st ⟨tcid, name, ToolArgs.fields kvs⟩ =
          Except.ok
            ⟨st.messages ++
               [{ role := "tool", content := Content.text (dumpsStr dumpsSuccessTrue),
                  tool_call_id := some tcid },
                { role := "user", content := Content.parts [ContentPart.image_url
                  ("data:image/" ++ fileTypeOf p ++ ";base64," ++ base64encode bytes)] }],
             st.log ++
               ([{ role := "tool", content := Content.text (dumpsStr dumpsSuccessTrue),
                   tool_call_id := some tcid },
                 { role := "user", content := Content.parts [ContentPart.image_url
                   ("data:image/" ++ fileTypeOf p ++ ";base64," ++ base64encode bytes)] }] : List Turn).map truncTurn⟩)
    ∧ (∀ (bytes : List Nat) (fid : String),
        fileTypeOf p = "pdf" → env.read p = some bytes → env.create p = some fid →
        callTool h env st ⟨tcid, name, ToolArgs.fields kvs⟩ =
          Except.ok
            ⟨st.messages ++
               [{ role := "tool", content := Content.text (dumpsStr dumpsSuccessTrue),
                  tool_call_id := some tcid },
                { role := "user", content := Content.parts [ContentPart.file fid] }],
             st.log ++
               ([{ role := "tool", content := Content.text (dumpsStr dumpsSuccessTrue),
                   tool_call_id := some tcid },
                 { role := "user", content := Content.parts [ContentPart.file fid] }] : List Turn).map truncTurn⟩) := by
  have hname : name = "ViewPDFTool" ∨ name = "ViewImageTool" := by
    simpa [FILE_REQUEST_TOOLS] using hn
  have hj : JUPYTER_NOTEBOOK_TOOL_NAMES.contains name = true := by
    rcases hname with h1 | h1 <;> (subst h1; rfl)
  have hex : ∀ h2 : Handler, execute_tool_request_file h2 name (ToolArgs.fields kvs) =
      Except.ok (dumpsSuccessTrue, some p) := by
    intro h2
    rcases hname with h1 | h1 <;> subst h1 <;>
      simp [execute_tool_request_file, JUPYTER_NOTEBOOK_TOOL_NAMES, TOOL_NAMES,
        FILE_REQUEST_TOOLS, hs, hp]
  refine ⟨hex, ?_, ?_⟩
  · intro bytes himg hr
    have hft : fileTypeOf p ≠ "pdf" := by
      rcases himg with h1 | h1 | h1 <;> simp [h1]
    have hok : callOk h env ⟨tcid, name, ToolArgs.fields kvs⟩ = true := by
      simp only [callOk, hex h, fileReqOk]
      rw [if_neg hft, if_pos himg, hr]
      rfl
    rw [callTool_ok h env st _ hok]
    have hct : callTurns1 h env ⟨tcid, name, ToolArgs.fields kvs⟩ =
        [{ role := "tool", content := Content.text (dumpsStr dumpsSuccessTrue),
           tool_call_id := some tcid },
         { role := "user", content := Content.parts [ContentPart.image_url
           ("data:image/" ++ fileTypeOf p ++ ";base64," ++ base64encode bytes)] }] := by
      simp only [callTurns1, hex h, artifactTurns]
      rw [if_neg hft, if_pos himg, hr]
    rw [hct]
  · intro bytes fid hft hr hc
    have hok : callOk h env ⟨tcid, name, ToolArgs.fields kvs⟩ = true := by
      simp only [callOk, hex h, fileReqOk]
      rw [if_pos hft, hr, hc]
      rfl
    rw [callTool_ok h env st _ hok]
    have hct : callTurns1 h env ⟨tcid, name, ToolArgs.fields kvs⟩ =
        [{ role := "tool", content := Content.text (dumpsStr dumpsSuccessTrue),
           tool_call_id := some tcid },
         { role := "user", content := Content.parts [ContentPart.file fid] }] := by
      simp only [callTurns1, hex h, artifactTurns]
      rw [if_pos hft, hr, hc]
    rw [hct]

/-- Witness for C7: `ViewImageTool` on `chart.png` (bytes 1,2,3 encode to
`AQID`) and `ViewPDFTool` on `report.pdf`. -/
theorem view_tool_artifact_flow_witness :
    (execute_tool_request_file hW "ViewImageTool"
        (ToolArgs.fields [("path", ArgVal.vstr "chart.png")]) =
      Except.ok (dumpsSuccessTrue, some "chart.png"))
    ∧ (callTool hW envW ⟨[], []⟩
        ⟨"call_4", "ViewImageTool", ToolArgs.fields [("path", ArgVal.vstr "chart.png")]⟩ =
      Except.ok
        ⟨[{ role := "tool", content := Content.text (dumpsStr dumpsSuccessTrue),
            tool_call_id := some "call_4" },
          { role := "user", content := Content.parts [ContentPart.image_url
            ("data:image/" ++ fileTypeOf "chart.png" ++ ";base64," ++ base64encode [1, 2, 3])] }],
         ([{ role := "tool", content := Content.text (dumpsStr dumpsSuccessTrue),
             tool_call_id := some "call_4" },
           { role := "user", content := Content.parts [ContentPart.image_url
             ("data:image/" ++ fileTypeOf "chart.png" ++ ";base64," ++ base64encode [1, 2, 3])] }] : List Turn).map truncTurn⟩)
    ∧ (callTool hW envW ⟨[], []⟩
        ⟨"call_5", "ViewPDFTool", ToolArgs.fields [("path", ArgVal.vstr "report.pdf")]⟩ =
      Except.ok
        ⟨[{ role := "tool", content := Content.text (dumpsStr dumpsSuccessTrue),
            tool_call_id := some "call_5" },
          { role := "user", content := Content.parts [ContentPart.file "file-report.pdf"] }],
         ([{ role := "tool", content := Content.text (dumpsStr dumpsSuccessTrue),
             tool_call_id := some "call_5" },
           { role := "user", content := Content.parts [ContentPart.file "file-report.pdf"] }] : List Turn).map truncTurn⟩) := by
  have T1 := view_tool_artifact_flow hW envW ⟨[], []⟩ "call_4" "chart.png"
    "ViewImageTool" [("path", ArgVal.vstr "chart.png")] rfl rfl rfl
  have T2 := view_tool_artifact_flow hW envW ⟨[], []⟩ "call_5" "report.pdf"
    "ViewPDFTool" [("path", ArgVal.vstr "report.pdf")] rfl rfl rfl
  exact ⟨T1.1 hW, T1.2.1 [1, 2, 3] (Or.inl (by decide)) rfl,
         T2.2.2 [1, 2, 3] "file-report.pdf" (by decide) rfl rfl⟩

/- ---------------------------------------------------------------------------
C8 — unknown capability name
--------------------------------------------------------------------------- -/

/-- C8: a tool call whose capability name is not in the registry (and whose
argument payload parses) yields the structured JSON error value naming the
unknown tool, with no artifact request; `call_tool` appends exactly that one
`tool` turn, and `Agent.query` continues with the next backend round trip
instead of failing. -/
theorem unknown_tool_structured_error (h : Handler) (env : Env)
    (tcid name : String) (kvs : List (String × ArgVal))
    (hn : JUPYTER_NOTEBOOK_TOOL_NAMES.contains name = false)
    (hs : sizedOk kvs = true) :
    (execute_tool_request_file h name (ToolArgs.fields kvs) =
      Except.ok (dumpsToolNotFound name, none))
    ∧ (∀ st : AgentState,
        callTool h env st ⟨tcid, name, ToolArgs.fields kvs⟩ =
          Except.ok ⟨st.messages ++
              [{ role := "tool", content := Content.text (dumpsStr (dumpsToolNotFound name)),
                 tool_call_id := some tcid }],
            st.log ++
              [truncTurn { role := "tool", content := Content.text (dumpsStr (dumpsToolNotFound name)),
                           tool_call_id := some tcid }]⟩)
    ∧ (∀ {α : Type} (dump : α → String) (st : AgentState) (r : ParsedMessage α)
         (rest : List (ParsedMessage α)),
        r.tool_calls = some [⟨tcid, name, ToolArgs.fields kvs⟩] →
        runQuery dump h env (r :: rest) st =
          runQuery dump h env rest
            ⟨(addAssistantMessage dump st r).messages ++
               [{ role := "tool", content := Content.text (dumpsStr (dumpsToolNotFound name)),
                  tool_call_id := some tcid }],
             (addAssistantMessage dump st r).log ++
               [truncTurn { role := "tool", content := Content.text (dumpsStr (dumpsToolNotFound name)),
                            tool_call_id := some tcid }]⟩) := by
  have hn2 : ¬ (name ∈ JUPYTER_NOTEBOOK_TOOL_NAMES) := by simpa using hn
  have hex : execute_tool_request_file h name (ToolArgs.fields kvs) =
      Except.ok (dumpsToolNotFound name, none) := by
    simp [execute_tool_request_file, hs, hn2]
  have hcall : ∀ st : AgentState,
      callTool h env st ⟨tcid, name, ToolArgs.fields kvs⟩ =
        Except.ok ⟨st.messages ++
            [{ role := "tool", content := Content.text (dumpsStr (dumpsToolNotFound name)),
               tool_call_id := some tcid }],
          st.log ++
            [truncTurn { role := "tool", content := Content.text (dumpsStr (dumpsToolNotFound name)),
                         tool_call_id := some tcid }]⟩ := by
    intro st
    cases st
    simp [callTool, hex, addMessageRaw]
  refine ⟨hex, hcall, ?_⟩
  intro α dump st r rest htc
  simp only [runQuery, htc, runCalls]
  rw [hcall (addAssistantMessage dump st r)]

/-- Witness for C8 at the unregistered name `FooTool`. -/
theorem unknown_tool_structured_error_witness :
    runQuery (α := String) id hW envW
      [⟨none, none, some [⟨"call_6", "FooTool", ToolArgs.fields [("path", ArgVal.vstr ".")]⟩]⟩,
       ⟨some "done", none, none⟩] ⟨[], []⟩ =
    runQuery (α := String) id hW envW [⟨some "done", none, none⟩]
      ⟨(addAssistantMessage (α := String) id ⟨[], []⟩
          ⟨none, none, some [⟨"call_6", "FooTool", ToolArgs.fields [("path", ArgVal.vstr ".")]⟩]⟩).messages ++
         [{ role := "tool", content := Content.text (dumpsStr (dumpsToolNotFound "FooTool")),
            tool_call_id := some "call_6" }],
       (addAssistantMessage (α := String) id ⟨[], []⟩
          ⟨none, none, some [⟨"call_6", "FooTool", ToolArgs.fields [("path", ArgVal.vstr ".")]⟩]⟩).log ++
         [truncTurn { role := "tool", content := Content.text (dumpsStr (dumpsToolNotFound "FooTool")),
                      tool_call_id := some "call_6" }]⟩ :=
  (unknown_tool_structured_error hW envW "call_6" "FooTool"
      [("path", ArgVal.vstr ".")] rfl rfl).2.2 id ⟨[], []⟩
    ⟨none, none, some [⟨"call_6", "FooTool", ToolArgs.fields [("path", ArgVal.vstr ".")]⟩]⟩
    [⟨some "done", none, none⟩] rfl

/- ---------------------------------------------------------------------------
C6 — ReviewVerdict feedback/acceptance correlation
--------------------------------------------------------------------------- -/

/-- Counterexample to C6: the value with `passed = True` and
`feedback = "needs work"` passes `ReviewResponse` validation (both fields have
their declared types), yet its feedback is not `None` while its acceptance
flag is true — the claimed iff invariant does not hold of every value the
system accepts. -/
theorem review_feedback_iff_cex :
    validateReviewResponse
        [("passed", JVal.jbool true), ("feedback", JVal.jstr "needs work")] =
      some ⟨true, some "needs work"⟩
    ∧ ¬ (((⟨true, some "needs work"⟩ : ReviewResponse).feedback = none) ↔
         ((⟨true, some "needs work"⟩ : ReviewResponse).passed = true)) :=
  ⟨rfl, by decide⟩

/-- C6 amended: `ReviewResponse` requires both fields but places no constraint
tying them together — every combination of a boolean `passed` with a string or
null `feedback` validates (the feedback-iff-acceptance correlation is only an
instruction in the model's docstring, not an enforced invariant). -/
theorem review_feedback_unconstrained (b : Bool) (fb : JVal) :
    validateReviewResponse [("passed", JVal.jbool b), ("feedback", fb)] =
      (match fb with
       | JVal.jstr s => some ⟨b, some s⟩
       | JVal.jnull => some ⟨b, none⟩
       | JVal.jbool _ => none) := by
  cases fb <;> rfl

/- ---------------------------------------------------------------------------
C4 — the review loop is never reached: ReviewAgent construction raises

`reviewLoop_resolved` documents what the loop body (agent_system.py lines
36-56) would guarantee — one resolved step, exactly one summary to the
planner — but `worker_step` raises `TypeError` at the `ReviewAgent(...)`
construction before that loop, so no step ever resolves in the source.
--------------------------------------------------------------------------- -/

theorem getLastD_append_single {α : Type} (xs : List α) (a d : α) :
    (xs ++ [a]).getLastD d = a := by
  induction xs with
  | nil => rfl
  | cons x xs ih =>
    cases xs with
    | nil => rfl
    | cons y ys => simpa using ih

/-- A resolved review loop extends `work_done` by exactly one entry and the
planner's conversation by exactly the matching user turn; nothing else of the
system state changes, and the planner is untouched until the loop resolves. -/
theorem reviewLoop_resolved (h : Handler) (env : Env) :
    ∀ (fuel : Nat) (revSt wSt : AgentState)
      (rResp : List (ParsedMessage ReviewResponse))
      (wResp : List (ParsedMessage String)) (sys sys2 : SysState)
      (a b : AgentState),
      reviewLoop h env fuel revSt wSt rResp wResp sys =
        Except.ok (some (sys2, a, b)) →
      ∃ w, sys2.work_done = sys.work_done ++ [w]
        ∧ sys2.planner.state.messages = sys.planner.state.messages ++ [mkUserTurn w]
        ∧ sys2.planner.state.log = sys.planner.state.log ++ [truncTurn (mkUserTurn w)]
        ∧ sys2.planner.plan = sys.planner.plan
        ∧ sys2.userPrompt = sys.userPrompt
        ∧ sys2.step_id = sys.step_id := by
  intro fuel
  induction fuel with
  | zero =>
    intro revSt wSt rResp wResp sys sys2 a b hl
    simp [reviewLoop] at hl
  | succ fuel ih =>
    intro revSt wSt rResp wResp sys sys2 a b hl
    rw [reviewLoop] at hl
    cases hr : reviewerRun h env rResp revSt with
    | error e => rw [hr] at hl; simp at hl
    | ok out =>
      rw [hr] at hl
      obtain ⟨rv, revSt1, rRest⟩ := out
      dsimp only at hl
      cases hp : rv.passed with
      | true =>
        rw [hp] at hl
        simp only [if_pos] at hl
        cases hw : workerRun h env wResp (addUserMessage wSt
            "The reviewer has passed the work. Providing a summary of all the work you did.") with
        | error e => rw [hw] at hl; simp at hl
        | ok wout =>
          rw [hw] at hl
          obtain ⟨w2, wSt2, wRest⟩ := wout
          dsimp only at hl
          simp only [Except.ok.injEq, Option.some.injEq, Prod.mk.injEq] at hl
          obtain ⟨hsys, -, -⟩ := hl
          subst hsys
          have hgl : (sys.work_done ++
              [workDoneEntry (workerName sys.step_id) w2]).getLastD "" =
              workDoneEntry (workerName sys.step_id) w2 :=
            getLastD_append_single _ _ _
          refine ⟨workDoneEntry (workerName sys.step_id) w2, rfl, ?_, ?_, rfl, rfl, rfl⟩
          · simp [addUserMessage, addMessageRaw, hgl]
          · simp [addUserMessage, addMessageRaw, hgl]
      | false =>
        rw [hp] at hl
        simp only [Bool.false_eq_true, if_false] at hl
        cases hw : workerRun h env wResp (addUserMessage wSt
            ("The reviewer has given the following feedback: " ++ optStr rv.feedback)) with
        | error e => rw [hw] at hl; simp at hl
        | ok wout =>
          rw [hw] at hl
          obtain ⟨w2, wSt2, wRest⟩ := wout
          dsimp only at hl
          exact ih _ _ _ _ _ _ _ _ hl

/-- C4 (code bug): `AgentSystem.worker_step` can never resolve a plan step in
the source.  The `Agent` dataclass (agent.py lines 22-30) declares `tools`
without a default, and `ReviewAgent.__init__` (review_agent.py lines 34-41)
omits it from its `super().__init__` call, so the `ReviewAgent(...)`
construction at agent_system.py lines 29-34 raises `TypeError` right after
the worker's first run (which happens while the constructor's arguments are
evaluated) — the review loop is never entered, no summary ever reaches the
planner, and the protocol the claim (and spec section 4.5) describe for the
loop body is unreachable.  Every reviewer construction raises, no
`worker_step` call ever resolves a step, and on the concrete scenario stream
`worker_step` evaluates to the `TypeError`. -/
theorem worker_step_reviewer_construction_raises (h : Handler) (env : Env) :
    (∀ userPrompt workerTask workerWork : String,
      reviewerInit userPrompt workerTask workerWork =
        Except.error PyError.typeError)
    ∧ (∀ (fuel : Nat) (sys : SysState) (plan : Option (List String))
         (wResp : List (ParsedMessage String))
         (rResp : List (ParsedMessage ReviewResponse)),
        stepResolved (worker_step h env fuel sys plan wResp rResp) = false)
    ∧ worker_step hW envW 1 wsSys (some ["Load data.csv and report shape"])
        wsWResp wsRPass = Except.error PyError.typeError := by
  refine ⟨fun u t w => rfl, ?_, rfl⟩
  intro fuel sys plan wResp rResp
  unfold worker_step
  cases plan with
  | none => rfl
  | some steps =>
    cases steps with
    | nil => rfl
    | cons step srest =>
      dsimp only
      cases hw : workerRun h env wResp
          (workerInit sys.userPrompt (String.intercalate "\n" sys.work_done) step) with
      | error e => rfl
      | ok wout =>
        obtain ⟨w1, wSt1, wRest⟩ := wout
        rfl

end Illuminate
